import Mathlib

/-!
Shallow embedding of `src/PivotTable.ts` (class `PivotTable`): schema
inference from a sample record, pivot-configuration validation, case-bucket
SQL generation, query assembly, and the two orchestration entry points
`getPivotData` and `getPivotDataFromMultipleConfigurations`.

JavaScript records are association lists from field names to primitive
values; the relational engine (Sequelize/SQLite) is modelled by an oracle
(`Storage`) supplying the outcome of each storage operation, while the pure
string-assembly code is translated function by function.
-/

/-- A JavaScript primitive value as far as `getTableDefinition` cares:
`typeof value === 'number'` selects `DOUBLE`, everything else `STRING`. -/
inductive Value
  | num (n : Int)
  | str (s : String)
deriving DecidableEq, Repr

/-- A record (one row of the input data): an object, i.e. an ordered list of
key/value pairs as `Object.entries` would enumerate them. -/
abbrev Record := List (String × Value)

/-- Sequelize column types used by the source: `DataTypes.DOUBLE` and
`DataTypes.STRING`. -/
inductive ColType
  | DOUBLE
  | STRING
deriving DecidableEq, Repr

/-- `TableDefinition`: mapping from column name to column type, in the
sample record's key order. -/
abbrev TableDefinition := List (String × ColType)

/-- `definition.hasOwnProperty(key)` on the table definition object. -/
def hasOwnProperty (defn : TableDefinition) (key : String) : Bool :=
  defn.any (fun kv => kv.1 == key)

/-- The JavaScript error values the source can throw or receive:
`new Error(msg)`, a runtime `TypeError` (from `Object.entries(undefined)`
when `data[0]` is `undefined`), and Sequelize's `DatabaseError` /
`ValidationError` classes used in the `instanceof` tests of the catch block. -/
inductive JsError
  | error (msg : String)
  | typeError (msg : String)
  | databaseError (msg : String)
  | validationError (msg : String)
deriving DecidableEq, Repr

/-- `getTableDefinition(sample)`: each numeric field becomes `DOUBLE`, every
other field `STRING` (source lines 56-66). -/
def getTableDefinition (sample : Record) : TableDefinition :=
  sample.map (fun kv =>
    (kv.1, match kv.2 with
      | Value.num _ => ColType.DOUBLE
      | Value.str _ => ColType.STRING))

/-- `data[0]` on an empty array is `undefined`, and
`Object.entries(undefined)` throws a `TypeError`; otherwise
`getTableDefinition` is a pure function of the sample. -/
def getTableDefinitionE (first : Option Record) : Except JsError TableDefinition :=
  match first with
  | none => Except.error (JsError.typeError "Cannot convert undefined or null to object")
  | some sample => Except.ok (getTableDefinition sample)

/-- A `forEach` loop that throws on the first offending element: returns the
first error produced by `f`, if any. -/
def firstThrow (f : α → Option JsError) : List α → Except JsError Unit
  | [] => Except.ok ()
  | x :: xs =>
    match f x with
    | some e => Except.error e
    | none => firstThrow f xs

/-- The aggregation `forEach` body (source lines 72-76): the entry is looked
up in the definition verbatim, with no alias splitting. -/
def aggCheck (defn : TableDefinition) (item : String) : Option JsError :=
  if hasOwnProperty defn item then none
  else some (JsError.error ("Invalid aggregation field: " ++ item))

/-- Character-level splitter on the four-character separator `" AS "`,
scanning left to right and cutting at each non-overlapping occurrence,
exactly as JavaScript `String.prototype.split(' AS ')` does. -/
def splitASChars : List Char → List (List Char)
  | [] => [[]]
  | ' ' :: 'A' :: 'S' :: ' ' :: rest => [] :: splitASChars rest
  | c :: rest =>
    match splitASChars rest with
    | [] => [[c]]
    | g :: gs => (c :: g) :: gs

/-- JavaScript destructuring `const [column, alias] = item.split(' AS ')`:
`column` is the first fragment, `alias` the second when it exists. -/
def splitAS (item : String) : List String :=
  (splitASChars item.data).map (fun g => String.mk g)

/-- `item.indexOf(' ') === -1` negated: whether the string holds a space. -/
def hasSpace (s : String) : Bool :=
  s.data.contains ' '

/-- The `column` component of a split entry. -/
def columnOf (item : String) : String :=
  (splitAS item).headD ""

/-- Truthiness of the destructured `alias`: `undefined` when the split has a
single fragment, and the empty string is falsy too. -/
def aliasTruthy (item : String) : Bool :=
  match (splitAS item)[1]? with
  | some a => a != ""
  | none => false

/-- The groupBy `forEach` body (source lines 79-97): an unaliased entry must
be a schema column unless it contains a space; an aliased entry's left-hand
column must be a schema column unless it is the literal `null` or contains a
space. -/
def groupByCheck (defn : TableDefinition) (item : String) : Option JsError :=
  if !aliasTruthy item && !hasSpace (columnOf item)
      && !hasOwnProperty defn (columnOf item) then
    some (JsError.error ("Invalid field in groupBy: " ++ columnOf item))
  else if aliasTruthy item && !hasOwnProperty defn (columnOf item)
      && columnOf item != "null" && !hasSpace (columnOf item) then
    some (JsError.error ("Invalid field in groupBy: " ++ columnOf item))
  else
    none

/-- The sortBy `forEach` body (source lines 100-104): verbatim lookup. -/
def sortByCheck (defn : TableDefinition) (item : String) : Option JsError :=
  if hasOwnProperty defn item then none
  else some (JsError.error ("Invalid sortBy field: " ++ item))

/-- `IPivotColumn`: the pivot (cross-tab) column specification. `values`
models the optional `{ [label]: string[] }` mapping as an ordered list of
entries, matching `Object.entries` iteration order. -/
structure IPivotColumn where
  caseColumn : String
  sumColumn : String
  values : Option (List (String × List String))
deriving DecidableEq, Repr

/-- `IPivotConf`: a pivot configuration. Optional fields are `Option`;
`some []` models a field present as an empty array (truthy in JavaScript),
`none` models an absent field. -/
structure IPivotConf where
  pivotColumn : Option IPivotColumn
  aggregation : List String
  groupBy : Option (List String)
  sortBy : Option (List String)
deriving DecidableEq, Repr

/-- `validatePivotConfig(pivotConf, definition)` (source lines 68-106):
aggregation entries first, then groupBy entries when present, then sortBy
entries when present, failing on the first offending entry. -/
def validatePivotConfig (pivotConf : IPivotConf) (defn : TableDefinition) :
    Except JsError Unit :=
  (firstThrow (aggCheck defn) pivotConf.aggregation).bind (fun _ =>
    (match pivotConf.groupBy with
      | some gs => firstThrow (groupByCheck defn) gs
      | none => Except.ok ()).bind (fun _ =>
      match pivotConf.sortBy with
      | some ss => firstThrow (sortByCheck defn) ss
      | none => Except.ok ()))

example :
    validatePivotConfig
      ⟨none, ["amount"], some ["null AS parentId", "category AS name"], none⟩
      (getTableDefinition [("amount", Value.num 1), ("category", Value.str "x")]) =
    Except.ok () := rfl

example :
    validatePivotConfig ⟨none, ["amount AS total"], none, none⟩
      (getTableDefinition [("amount", Value.num 1)]) =
    Except.error (JsError.error "Invalid aggregation field: amount AS total") := rfl

/-- JavaScript `Array.prototype.join(sep)`. -/
def joinSep (sep : String) : List String → String
  | [] => ""
  | [x] => x
  | x :: xs => x ++ sep ++ joinSep sep xs

/-- The relation name `TEMP_TABLE_NAME = 'temp_rows'`. -/
def TEMP_TABLE_NAME : String := "temp_rows"

/-- `getSqlCase(pivotColumn)` (source lines 123-157). The distinct-value
scan `SELECT DISTINCT caseColumn FROM temp_rows` is an external query; its
outcome is passed in as `distinctScan` (the string forms of the distinct
values, or the engine's error). With explicit `values` the scan is never
issued; without them the scan result is capped at 150 distinct values. -/
def getSqlCase (pivotColumn : IPivotColumn)
    (distinctScan : Except JsError (List String)) : Except JsError String :=
  match pivotColumn.values with
  | some values =>
    Except.ok (joinSep ", " (values.map (fun kv =>
      "SUM(CASE WHEN " ++ pivotColumn.caseColumn ++ " IN ('" ++ joinSep "', '" kv.2
        ++ "') THEN " ++ pivotColumn.sumColumn ++ " ELSE 0 END) AS \"" ++ kv.1 ++ "\"")))
  | none =>
    match distinctScan with
    | Except.error e => Except.error e
    | Except.ok caseValues =>
      if caseValues.length > 150 then
        Except.error (JsError.error "Column values exceed the limit of 150")
      else
        Except.ok (joinSep ", " (caseValues.map (fun v =>
          "SUM(CASE WHEN " ++ pivotColumn.caseColumn ++ " = '" ++ v
            ++ "' THEN " ++ pivotColumn.sumColumn ++ " ELSE 0 END) AS \"" ++ v ++ "\"")))

/-- The body of the aggregation `map` of `getSql` (source lines 170-173):
`const [column, alias = column] = item.split(' AS ')`, emitting
`SUM(column) AS alias`. -/
def sumExpr (item : String) : String :=
  "SUM(" ++ columnOf item ++ ") AS "
    ++ (match (splitAS item)[1]? with
        | some a => a
        | none => columnOf item)

/-- The body of `if (sqlCases) selectCase = [sqlCases]` (source lines
165-167): the joined case expressions become a single select entry unless
they are the (falsy) empty string. -/
def bucketSelect (sqlCases : String) : List String :=
  if sqlCases != "" then [sqlCases] else []

/-- The pivot-case part of `getSql` (source lines 163-168): run
`getSqlCase` when a pivot column is configured, else contribute nothing. -/
def selectCaseE (pivotConf : IPivotConf)
    (scan : String → Except JsError (List String)) :
    Except JsError (List String) :=
  match pivotConf.pivotColumn with
  | some pc => (getSqlCase pc (scan pc.caseColumn)).map bucketSelect
  | none => Except.ok []

/-- The query text `getSql` assembles once the pivot-case entries are known
(source lines 170-192): the select list, the group-by prefix when `groupBy`
is a non-empty array, and the `GROUP BY` / `ORDER BY` clauses appended
whenever the field is present (also when it is an empty, still truthy,
array). -/
def sqlText (pivotConf : IPivotConf) (selectCase : List String) : String :=
  let selectAgg : List String := pivotConf.aggregation.map sumExpr
  let selectArr := selectCase ++ selectAgg
  let groupFieldsSql : String :=
    match pivotConf.groupBy with
    | some gs => if gs.length > 0 then joinSep ", " gs ++ "," else ""
    | none => ""
  let sql0 := "SELECT " ++ groupFieldsSql ++ " " ++ joinSep ", " selectArr
    ++ " FROM " ++ TEMP_TABLE_NAME
  let sql1 :=
    match pivotConf.groupBy with
    | some gs => sql0 ++ " GROUP BY " ++ joinSep ", " (gs.map columnOf)
    | none => sql0
  match pivotConf.sortBy with
  | some ss => sql1 ++ " ORDER BY " ++ joinSep ", " ss
  | none => sql1

/-- `getSql(pivotConf)` (source lines 159-193). -/
def getSql (pivotConf : IPivotConf)
    (scan : String → Except JsError (List String)) : Except JsError String :=
  (selectCaseE pivotConf scan).bind
    (fun selectCase => Except.ok (sqlText pivotConf selectCase))

example :
    getSql ⟨none, ["amount"], none, none⟩ (fun _ => Except.ok []) =
    Except.ok "SELECT  SUM(amount) AS amount FROM temp_rows" := rfl

example :
    getSql
      ⟨some ⟨"month", "amount", none⟩, ["amount"],
        some ["category AS name"], some ["category"]⟩
      (fun _ => Except.ok ["2022-01", "2022-02"]) =
    Except.ok ("SELECT category AS name, "
      ++ "SUM(CASE WHEN month = '2022-01' THEN amount ELSE 0 END) AS \"2022-01\", "
      ++ "SUM(CASE WHEN month = '2022-02' THEN amount ELSE 0 END) AS \"2022-02\", "
      ++ "SUM(amount) AS amount FROM temp_rows GROUP BY category ORDER BY category") := rfl

example :
    getSqlCase ⟨"month", "amount", some [("q1", ["2022-01", "2022-02"])]⟩
      (Except.ok []) =
    Except.ok
      "SUM(CASE WHEN month IN ('2022-01', '2022-02') THEN amount ELSE 0 END) AS \"q1\"" := rfl

/-- A result row as returned by the engine: raw field mappings. -/
abbrev Row := Record

/-- Oracle for the external relational engine: the outcome of each storage
operation a pivot call may perform. `none` / `Except.ok` is success.
`distinctScan caseColumn` is the outcome of the
`SELECT DISTINCT caseColumn FROM temp_rows` bucket-discovery query (the
string forms of the distinct values in the loaded data), and
`queryResult sqlText` the engine's response to the assembled aggregate
query. -/
structure Storage where
  createErr : Option JsError
  loadErr : Option JsError
  distinctScan : String → Except JsError (List String)
  queryResult : String → Except JsError (List Row)
  clearErr : Option JsError

/-- The lifecycle state of the ephemeral relation at the end of a call:
either never created, or created and currently holding the given rows
(truncation leaves it with `[]`). -/
inductive RelState
  | noRelation
  | rows (rs : List Record)
deriving Repr

/-- Observable lifecycle events of one entry-point call, in order:
relation creation (`create`), bulk load (`load`), a configuration passing
or failing validation, execution of the assembled query (`query`), and a
completed `clearModel` truncation (`clear`). -/
inductive Event
  | create
  | load
  | validateOk
  | validateFail
  | query
  | clear
deriving DecidableEq, Repr

/-- What one entry-point call produced: the value returned or error thrown,
the final state of the ephemeral relation, and the event trace. -/
structure RunResult (α : Type) where
  result : Except JsError α
  state : RelState
  trace : List Event
deriving Repr

/-- The catch block of `getPivotData` (source lines 217-230): the caught
error is mapped to one of three human-readable messages by `instanceof`
tests and rethrown as a fresh `Error`. A plain `Error` (as thrown by
validation or the bucket cap) and a `TypeError` both fall to the generic
message. -/
def errorMessageFor (e : JsError) : String :=
  match e with
  | JsError.databaseError _ =>
    "An error occurred while executing the SQL query. Please check your inputs."
  | JsError.validationError _ =>
    "The provided configuration is invalid. Please check your inputs."
  | _ => "An error occurred while processing your request. Please try again."

/-- The error `getPivotData` rethrows for a caught error. -/
def surfaced (e : JsError) : JsError :=
  JsError.error (errorMessageFor e)

/-- `getPivotData(data, pivotConf)` (source lines 195-231). The try block
runs: sample schema inference, validation, `createTable`, `bulkCreate`,
`getSql` (with its embedded distinct scan), the aggregate query, then
`clearModel`, returning the rows. The catch block rethrows a mapped error
and performs no cleanup, so the relation keeps whatever rows it held when
the error was thrown. -/
def getPivotData (data : List Record) (pivotConf : IPivotConf) (st : Storage) :
    RunResult (List Row) :=
  match getTableDefinitionE data.head? with
  | Except.error e => ⟨Except.error (surfaced e), RelState.noRelation, []⟩
  | Except.ok defn =>
    match validatePivotConfig pivotConf defn with
    | Except.error e =>
      ⟨Except.error (surfaced e), RelState.noRelation, [Event.validateFail]⟩
    | Except.ok _ =>
      match st.createErr with
      | some e =>
        ⟨Except.error (surfaced e), RelState.rows [],
          [Event.validateOk, Event.create]⟩
      | none =>
        match st.loadErr with
        | some e =>
          ⟨Except.error (surfaced e), RelState.rows [],
            [Event.validateOk, Event.create, Event.load]⟩
        | none =>
          match getSql pivotConf st.distinctScan with
          | Except.error e =>
            ⟨Except.error (surfaced e), RelState.rows data,
              [Event.validateOk, Event.create, Event.load]⟩
          | Except.ok _sql =>
            match st.queryResult _sql with
            | Except.error e =>
              ⟨Except.error (surfaced e), RelState.rows data,
                [Event.validateOk, Event.create, Event.load, Event.query]⟩
            | Except.ok pivotData =>
              match st.clearErr with
              | some e =>
                ⟨Except.error (surfaced e), RelState.rows data,
                  [Event.validateOk, Event.create, Event.load, Event.query]⟩
              | none =>
                ⟨Except.ok pivotData, RelState.rows [],
                  [Event.validateOk, Event.create, Event.load, Event.query,
                    Event.clear]⟩

/-- The `for (const pivotConf of configArray)` loop of
`getPivotDataFromMultipleConfigurations` (source lines 246-257): validate,
assemble, execute, accumulate, stopping at the first thrown error. -/
def runConfigs (defn : TableDefinition) (st : Storage) :
    List IPivotConf → Except JsError (List (List Row)) × List Event
  | [] => (Except.ok [], [])
  | pivotConf :: rest =>
    match validatePivotConfig pivotConf defn with
    | Except.error e => (Except.error e, [Event.validateFail])
    | Except.ok _ =>
      match getSql pivotConf st.distinctScan with
      | Except.error e => (Except.error e, [Event.validateOk])
      | Except.ok _sql =>
        match st.queryResult _sql with
        | Except.error e => (Except.error e, [Event.validateOk, Event.query])
        | Except.ok result =>
          match runConfigs defn st rest with
          | (Except.error e, tr) =>
            (Except.error e, Event.validateOk :: Event.query :: tr)
          | (Except.ok results, tr) =>
            (Except.ok (result :: results), Event.validateOk :: Event.query :: tr)

/-- `getPivotDataFromMultipleConfigurations(data, configArray)` (source
lines 233-262): schema inference, `createTable` and `bulkCreate` run before
the try block (their errors propagate raw and uncleaned); the
configuration loop runs inside `try ... finally clearModel()`, so the
truncation happens exactly once on success and on failure alike, and an
error thrown by `clearModel` itself supersedes the pending outcome. -/
def getPivotDataFromMultipleConfigurations (data : List Record)
    (configArray : List IPivotConf) (st : Storage) :
    RunResult (List (List Row)) :=
  match getTableDefinitionE data.head? with
  | Except.error e => ⟨Except.error e, RelState.noRelation, []⟩
  | Except.ok defn =>
    match st.createErr with
    | some e => ⟨Except.error e, RelState.rows [], [Event.create]⟩
    | none =>
      match st.loadErr with
      | some e => ⟨Except.error e, RelState.rows [], [Event.create, Event.load]⟩
      | none =>
        match runConfigs defn st configArray with
        | (res, tr) =>
          match st.clearErr with
          | some ce =>
            ⟨Except.error ce, RelState.rows data,
              Event.create :: Event.load :: tr⟩
          | none =>
            ⟨res, RelState.rows [],
              (Event.create :: Event.load :: tr) ++ [Event.clear]⟩

example :
    (getPivotData [[("a", Value.num 1)]] ⟨none, ["a"], none, none⟩
      ⟨none, none, fun _ => Except.ok [],
        fun _ => Except.error (JsError.databaseError "boom"), none⟩).state =
    RelState.rows [[("a", Value.num 1)]] := rfl

example :
    (getPivotDataFromMultipleConfigurations [[("a", Value.num 1)]]
      [⟨none, ["bogus"], none, none⟩]
      ⟨none, none, fun _ => Except.ok [], fun _ => Except.ok [], none⟩).trace =
    [Event.create, Event.load, Event.validateFail, Event.clear] := rfl

/-! ### Helper lemmas and concrete fixtures -/

theorem firstThrow_eq_ok_iff (f : α → Option JsError) (l : List α) :
    firstThrow f l = Except.ok () ↔ ∀ x ∈ l, f x = none := by
  induction l with
  | nil => simp [firstThrow]
  | cons x xs ih =>
    cases h : f x with
    | some e => simp [firstThrow, h]
    | none => simp [firstThrow, h, ih]

theorem aggCheck_eq_none_iff (defn : TableDefinition) (item : String) :
    aggCheck defn item = none ↔ hasOwnProperty defn item = true := by
  unfold aggCheck
  cases h : hasOwnProperty defn item <;> simp [h]

/-- A one-record dataset with a single numeric field `a`. -/
def recA : Record := [("a", Value.num 1)]

/-- A configuration summing the existing column `a`. -/
def confA : IPivotConf := ⟨none, ["a"], none, none⟩

/-- A configuration whose aggregation names a column absent from `recA`. -/
def confBad : IPivotConf := ⟨none, ["bogus"], none, none⟩

/-- A storage oracle on which every engine operation succeeds. -/
def stOk : Storage :=
  ⟨none, none, fun _ => Except.ok [], fun _ => Except.ok [], none⟩

/-- A storage oracle on which the aggregate query fails with a
`DatabaseError` while everything else succeeds. -/
def stQueryFail : Storage :=
  ⟨none, none, fun _ => Except.ok [],
    fun _ => Except.error (JsError.databaseError "SQLITE_ERROR"), none⟩

/-! ### C1 -/

/-- C1: evaluation of `getPivotData` at a concrete failing input. The data
loads, the aggregate query fails with a `DatabaseError`, and the call
surfaces the mapped error without ever executing `clearModel`: the trace
has no `clear` event and the relation still holds the loaded row. The
catch block of `getPivotData` (source lines 217-230) performs no cleanup,
so the claimed clear-on-every-exit-path invariant fails on this path. -/
theorem getPivotData_query_failure_skips_clear :
    getPivotData [recA] confA stQueryFail =
      ⟨Except.error (JsError.error
          "An error occurred while executing the SQL query. Please check your inputs."),
        RelState.rows [recA],
        [Event.validateOk, Event.create, Event.load, Event.query]⟩ := rfl

/-! ### C2 -/

/-- C2, counterexample: in `getPivotDataFromMultipleConfigurations` the
relation is created and the records loaded before any validation runs, so
a validation failure does not leave the call without residual state: the
trace shows `create` and `load` preceding the failed validation (the
`finally` block then truncates). -/
theorem multi_validation_failure_happens_after_load :
    getPivotDataFromMultipleConfigurations [recA] [confBad] stOk =
      ⟨Except.error (JsError.error "Invalid aggregation field: bogus"),
        RelState.rows [],
        [Event.create, Event.load, Event.validateFail, Event.clear]⟩ := rfl

/-- C2, amended: in `getPivotData` validation runs to completion before the
relation is created, so a validation failure leaves no relation and no
loaded records; in `getPivotDataFromMultipleConfigurations` the relation
is created and loaded before any configuration is validated, and a
validation failure surfaces with the relation already created — the
`finally` block truncates it afterwards. -/
theorem validation_failure_state_amended (data : List Record)
    (conf : IPivotConf) (st : Storage) (sample : Record) (e : JsError)
    (hd : data.head? = some sample)
    (hv : validatePivotConfig conf (getTableDefinition sample) = Except.error e)
    (hc : st.createErr = none) (hl : st.loadErr = none)
    (hcl : st.clearErr = none) :
    getPivotData data conf st =
      ⟨Except.error (surfaced e), RelState.noRelation, [Event.validateFail]⟩
    ∧ getPivotDataFromMultipleConfigurations data [conf] st =
      ⟨Except.error e, RelState.rows [],
        [Event.create, Event.load, Event.validateFail, Event.clear]⟩ := by
  constructor
  · simp [getPivotData, getTableDefinitionE, hd, hv]
  · simp [getPivotDataFromMultipleConfigurations, getTableDefinitionE, hd,
      hc, hl, hcl, runConfigs, hv]

/-- C2, witness for the amended theorem at `[recA]`, `confBad`, `stOk`. -/
theorem validation_failure_state_amended_witness :
    getPivotData [recA] confBad stOk =
      ⟨Except.error (surfaced (JsError.error "Invalid aggregation field: bogus")),
        RelState.noRelation, [Event.validateFail]⟩
    ∧ getPivotDataFromMultipleConfigurations [recA] [confBad] stOk =
      ⟨Except.error (JsError.error "Invalid aggregation field: bogus"),
        RelState.rows [],
        [Event.create, Event.load, Event.validateFail, Event.clear]⟩ :=
  validation_failure_state_amended [recA] confBad stOk recA
    (JsError.error "Invalid aggregation field: bogus") rfl rfl rfl rfl rfl

/-! ### C3 -/

/-- A pivot column whose explicit bucket value carries a single quote. -/
def pcInj : IPivotColumn := ⟨"state", "amount", some [("b", ["O'Brien"])]⟩

/-- C3: evaluation of the bucket assembler at a failing input. The
user-supplied bucket value `O'Brien` contains the quote character, and
`getSqlCase` interpolates it verbatim into the query text: the emitted
string-literal list reads `IN ('O'Brien')`, with the quote unescaped —
nothing is neutralized or rejected before interpolation. -/
theorem getSqlCase_interpolates_quote_verbatim :
    getSqlCase pcInj (Except.ok []) =
      Except.ok
        "SUM(CASE WHEN state IN ('O'Brien') THEN amount ELSE 0 END) AS \"b\"" := rfl

/-! ### C5 -/

/-- C5, counterexample: with an empty records array `getPivotData` surfaces
exactly the same generic error value as it does for an unrelated invalid
configuration on a non-empty dataset, so the no-sample failure is not a
distinguishable error kind. -/
theorem empty_dataset_error_indistinguishable :
    (getPivotData [] confA stOk).result =
      Except.error (JsError.error
        "An error occurred while processing your request. Please try again.")
    ∧ (getPivotData [recA] confBad stOk).result =
      Except.error (JsError.error
        "An error occurred while processing your request. Please try again.") :=
  ⟨rfl, rfl⟩

/-- C5, amended: with an empty records array both entry points fail before
any relation is created — `data[0]` is `undefined` and sampling it throws a
`TypeError`. `getPivotData` surfaces it as the generic processing-error
message (the same as for any other non-engine failure), and the batch entry
point propagates the raw `TypeError`; there is no dedicated
empty-dataset error kind. -/
theorem empty_records_fail_before_relation (conf : IPivotConf)
    (configs : List IPivotConf) (st : Storage) :
    getPivotData [] conf st =
      ⟨Except.error (JsError.error
          "An error occurred while processing your request. Please try again."),
        RelState.noRelation, []⟩
    ∧ getPivotDataFromMultipleConfigurations [] configs st =
      ⟨Except.error (JsError.typeError "Cannot convert undefined or null to object"),
        RelState.noRelation, []⟩ :=
  ⟨rfl, rfl⟩

/-! ### C6 -/

/-- C6, counterexample: the schema holds `amount`, yet the aliased
aggregation entry `amount AS total` is rejected — `validatePivotConfig`
looks the entry up verbatim and never splits on `' AS '`. -/
theorem aliased_aggregation_entry_rejected :
    validatePivotConfig ⟨none, ["amount AS total"], none, none⟩
        (getTableDefinition [("amount", Value.num 1)]) =
      Except.error (JsError.error "Invalid aggregation field: amount AS total") := rfl

/-- C6, amended: the aggregation stage of `validatePivotConfig` succeeds if
and only if every aggregation entry, taken verbatim with no alias
splitting, is a schema column; alias splitting (with the alias defaulting
to the column) happens only in `getSql`, which compiles
`amount AS total` to `SUM(amount) AS total`. -/
theorem validatePivotConfig_agg_only (defn : TableDefinition)
    (aggs : List String) :
    validatePivotConfig ⟨none, aggs, none, none⟩ defn =
      firstThrow (aggCheck defn) aggs := by
  show (firstThrow (aggCheck defn) aggs).bind _ = _
  cases hft : firstThrow (aggCheck defn) aggs with
  | error e => rfl
  | ok u => cases u; rfl

theorem aggregation_validated_verbatim (defn : TableDefinition)
    (aggs : List String) :
    (validatePivotConfig ⟨none, aggs, none, none⟩ defn = Except.ok ()
      ↔ ∀ item ∈ aggs, hasOwnProperty defn item = true)
    ∧ ∀ scan, getSql ⟨none, ["amount AS total"], none, none⟩ scan =
        Except.ok "SELECT  SUM(amount) AS total FROM temp_rows" := by
  refine ⟨?_, fun scan => rfl⟩
  rw [validatePivotConfig_agg_only, firstThrow_eq_ok_iff]
  constructor <;> intro h x hx
  · exact (aggCheck_eq_none_iff defn x).1 (h x hx)
  · exact (aggCheck_eq_none_iff defn x).2 (h x hx)

/-! ### C4 -/

/-- The string form a result row presents for a stored value, as
interpolated by the template literal reading `row[caseColumn]`. -/
def valueText : Value → String
  | Value.num n => toString n
  | Value.str s => s

/-- The distinct values of column `col` in the loaded dataset, first
occurrence first: what the `SELECT DISTINCT col FROM temp_rows` scan of
`getSqlCase` returns. -/
def distinctCaseValues (data : List Record) (col : String) : List String :=
  ((data.filterMap (fun r => r.lookup col)).map valueText).eraseDups

/-- The conditional-sum expression emitted for one auto-discovered bucket:
an equality test on the case column, aliased to the value itself. -/
def equalityTestExpr (caseColumn sumColumn v : String) : String :=
  "SUM(CASE WHEN " ++ caseColumn ++ " = '" ++ v ++ "' THEN " ++ sumColumn
    ++ " ELSE 0 END) AS \"" ++ v ++ "\""

/-- The conditional-sum expression emitted for one explicit bucket: a
set-membership test over exactly the supplied values, aliased to the
bucket label. -/
def membershipTestExpr (caseColumn sumColumn label : String)
    (vals : List String) : String :=
  "SUM(CASE WHEN " ++ caseColumn ++ " IN ('" ++ joinSep "', '" vals
    ++ "') THEN " ++ sumColumn ++ " ELSE 0 END) AS \"" ++ label ++ "\""

/-- C4: with auto-discovered buckets (no explicit `values` mapping), the
resolution fails with the 150-bucket error exactly when the dataset has
more than 150 distinct case-column values; at 150 or fewer it succeeds and
emits one equality-test bucket expression per distinct value. -/
theorem bucket_discovery_capped_at_150 (pc : IPivotColumn)
    (data : List Record) (hauto : pc.values = none) :
    (150 < (distinctCaseValues data pc.caseColumn).length →
      getSqlCase pc (Except.ok (distinctCaseValues data pc.caseColumn)) =
        Except.error (JsError.error "Column values exceed the limit of 150"))
    ∧ ((distinctCaseValues data pc.caseColumn).length ≤ 150 →
      getSqlCase pc (Except.ok (distinctCaseValues data pc.caseColumn)) =
        Except.ok (joinSep ", " ((distinctCaseValues data pc.caseColumn).map
          (equalityTestExpr pc.caseColumn pc.sumColumn)))
      ∧ ((distinctCaseValues data pc.caseColumn).map
          (equalityTestExpr pc.caseColumn pc.sumColumn)).length =
        (distinctCaseValues data pc.caseColumn).length) := by
  constructor
  · intro h
    simp only [getSqlCase, hauto]
    rw [if_pos h]
  · intro h
    refine ⟨?_, by simp⟩
    simp only [getSqlCase, hauto]
    rw [if_neg (by omega)]
    rfl

/-- The pivot column of the README's first example, with auto-discovery. -/
def pcAuto : IPivotColumn := ⟨"month", "amount", none⟩

/-- A three-record dataset with two distinct `month` values. -/
def dataMonths : List Record :=
  [[("month", Value.str "2022-01"), ("amount", Value.num 10)],
   [("month", Value.str "2022-01"), ("amount", Value.num 5)],
   [("month", Value.str "2022-02"), ("amount", Value.num 7)]]

/-- C4, witness at `pcAuto` and `dataMonths`. -/
theorem bucket_discovery_capped_at_150_witness :
    (150 < (distinctCaseValues dataMonths "month").length →
      getSqlCase pcAuto (Except.ok (distinctCaseValues dataMonths "month")) =
        Except.error (JsError.error "Column values exceed the limit of 150"))
    ∧ ((distinctCaseValues dataMonths "month").length ≤ 150 →
      getSqlCase pcAuto (Except.ok (distinctCaseValues dataMonths "month")) =
        Except.ok (joinSep ", " ((distinctCaseValues dataMonths "month").map
          (equalityTestExpr "month" "amount")))
      ∧ ((distinctCaseValues dataMonths "month").map
          (equalityTestExpr "month" "amount")).length =
        (distinctCaseValues dataMonths "month").length) :=
  bucket_discovery_capped_at_150 pcAuto dataMonths rfl

/-! ### C7 -/

theorem validatePivotConfig_groupBy_only (defn : TableDefinition)
    (gs : List String) :
    validatePivotConfig ⟨none, [], some gs, none⟩ defn =
      firstThrow (groupByCheck defn) gs := by
  show (firstThrow (groupByCheck defn) gs).bind _ = _
  cases hft : firstThrow (groupByCheck defn) gs with
  | error e => rfl
  | ok u => cases u; rfl

/-- The condition under which a groupBy entry is rejected, read off the two
if-statements of the source (lines 81-96). -/
def groupByRejects (defn : TableDefinition) (item : String) : Prop :=
  (aliasTruthy item = false ∧ hasSpace (columnOf item) = false
      ∧ hasOwnProperty defn (columnOf item) = false)
  ∨ (aliasTruthy item = true ∧ hasOwnProperty defn (columnOf item) = false
      ∧ columnOf item ≠ "null" ∧ hasSpace (columnOf item) = false)

instance (defn : TableDefinition) (item : String) :
    Decidable (groupByRejects defn item) := by
  unfold groupByRejects
  infer_instance

theorem groupByCheck_eq (defn : TableDefinition) (item : String) :
    groupByCheck defn item =
      (if groupByRejects defn item then
        some (JsError.error ("Invalid field in groupBy: " ++ columnOf item))
      else none) := by
  unfold groupByCheck groupByRejects
  by_cases hA : aliasTruthy item = true <;>
    by_cases hS : hasSpace (columnOf item) = true <;>
      by_cases hO : hasOwnProperty defn (columnOf item) = true <;>
        by_cases hN : columnOf item = "null" <;>
          simp_all [and_assoc]

/-- C7: a groupBy entry makes validation throw the invalid-field error
exactly when, after splitting on `' AS '`: there is no (truthy) alias, the
bare column has no space and is absent from the schema; or there is an
alias and the left-hand column is absent from the schema, differs from the
literal `null`, and has no space. -/
theorem groupBy_entry_validation_rule (defn : TableDefinition)
    (item : String) :
    validatePivotConfig ⟨none, [], some [item], none⟩ defn =
      Except.error
        (JsError.error ("Invalid field in groupBy: " ++ columnOf item))
    ↔ groupByRejects defn item := by
  rw [validatePivotConfig_groupBy_only]
  by_cases hC : groupByRejects defn item <;>
    simp [firstThrow, groupByCheck_eq, hC]

/-! ### C8 -/

/-- Whether a string holds the equality-sign character at all. -/
def hasEqualsSign (s : String) : Bool :=
  s.data.contains '='

/-- C8, counterexample: an explicit bucket with exactly one predicate value
is emitted as a set-membership test `IN ('x')` — the expression holds no
equality sign at all, so the single-value case does not collapse to an
equality test when the bucket comes from the explicit values mapping. -/
theorem single_value_explicit_bucket_uses_membership :
    getSqlCase ⟨"month", "amount", some [("b", ["x"])]⟩ (Except.ok []) =
      Except.ok "SUM(CASE WHEN month IN ('x') THEN amount ELSE 0 END) AS \"b\""
    ∧ hasEqualsSign
        "SUM(CASE WHEN month IN ('x') THEN amount ELSE 0 END) AS \"b\"" = false :=
  ⟨rfl, rfl⟩

/-- C8, amended: buckets from the explicit values mapping always use a
set-membership test over exactly the supplied values — also when a bucket
has a single value — while auto-discovered buckets (always a single
distinct value each) use an equality test. -/
theorem bucket_predicate_shapes (cc sc : String)
    (kvs : List (String × List String)) (vs : List String)
    (hlen : vs.length ≤ 150) :
    getSqlCase ⟨cc, sc, some kvs⟩ (Except.ok vs) =
      Except.ok (joinSep ", "
        (kvs.map (fun kv => membershipTestExpr cc sc kv.1 kv.2)))
    ∧ getSqlCase ⟨cc, sc, none⟩ (Except.ok vs) =
      Except.ok (joinSep ", " (vs.map (equalityTestExpr cc sc))) := by
  constructor
  · rfl
  · simp only [getSqlCase]
    rw [if_neg (by omega)]
    rfl

/-- C8, witness at concrete buckets and scan values. -/
theorem bucket_predicate_shapes_witness :
    getSqlCase ⟨"month", "amount", some [("b", ["x"]), ("c", ["y", "z"])]⟩
        (Except.ok ["2022-01"]) =
      Except.ok (joinSep ", "
        ([("b", ["x"]), ("c", ["y", "z"])].map
          (fun kv => membershipTestExpr "month" "amount" kv.1 kv.2)))
    ∧ getSqlCase ⟨"month", "amount", none⟩ (Except.ok ["2022-01"]) =
      Except.ok (joinSep ", " (["2022-01"].map (equalityTestExpr "month" "amount"))) :=
  bucket_predicate_shapes "month" "amount" [("b", ["x"]), ("c", ["y", "z"])]
    ["2022-01"] (by decide)

/-! ### C9 -/

theorem joinSep_cons_ne (sep x : String) (xs : List String) (h : xs ≠ []) :
    joinSep sep (x :: xs) = x ++ sep ++ joinSep sep xs := by
  cases xs with
  | nil => exact absurd rfl h
  | cons y ys => rfl

theorem joinSep_append (sep : String) (a b : List String)
    (ha : a ≠ []) (hb : b ≠ []) :
    joinSep sep (a ++ b) = joinSep sep a ++ sep ++ joinSep sep b := by
  induction a with
  | nil => exact absurd rfl ha
  | cons x xs ih =>
    cases xs with
    | nil =>
      simp only [List.cons_append, List.nil_append]
      rw [joinSep_cons_ne sep x b hb]
      rfl
    | cons z zs =>
      have hxs : (z :: zs : List String) ≠ [] := by simp
      have hab : ((z :: zs) ++ b : List String) ≠ [] := by simp
      rw [List.cons_append, joinSep_cons_ne sep x _ hab, ih hxs,
        joinSep_cons_ne sep x _ hxs]
      simp [String.append_assoc]

theorem comma_space_append (s : String) : "," ++ (" " ++ s) = ", " ++ s := by
  rw [← String.append_assoc]
  rfl

theorem group_order_fold (s : String) :
    " GROUP BY " ++ (" ORDER BY " ++ s) = " GROUP BY  ORDER BY " ++ s := by
  rw [← String.append_assoc]
  rfl

/-- The select-list order stated by the specification: the groupBy raw
expressions (full original text) in declared order, then the resolved
bucket entries, then the aggregation sum expressions. -/
def specSelectList (pivotConf : IPivotConf) (bucketEntries : List String) :
    List String :=
  pivotConf.groupBy.getD [] ++ bucketEntries
    ++ pivotConf.aggregation.map sumExpr

/-- The GROUP BY clause stated by the specification: only the left-hand
(pre-alias) portion of each groupBy entry, in order. -/
def specGroupClause (pivotConf : IPivotConf) : String :=
  match pivotConf.groupBy with
  | some gs => " GROUP BY " ++ joinSep ", " (gs.map columnOf)
  | none => ""

/-- The ORDER BY clause stated by the specification: the sortBy entries
verbatim, in order. -/
def specOrderClause (pivotConf : IPivotConf) : String :=
  match pivotConf.sortBy with
  | some ss => " ORDER BY " ++ joinSep ", " ss
  | none => ""

/-- C9: the assembled query lists the select columns in the order groupBy
raw expressions (alias included), then the resolved bucket entries, then
the aggregation sums; the GROUP BY clause uses only the pre-alias portion
of each groupBy entry and the ORDER BY clause lists the sortBy entries
verbatim. (The space after `SELECT` doubles when the group prefix is
empty, exactly as the template literal does.) -/
theorem query_assembly_order (pivotConf : IPivotConf)
    (scan : String → Except JsError (List String))
    (bucketEntries : List String)
    (hb : selectCaseE pivotConf scan = Except.ok bucketEntries)
    (hne : pivotConf.aggregation ≠ []) :
    getSql pivotConf scan = Except.ok
      ("SELECT " ++ (if pivotConf.groupBy.getD [] = [] then " " else "")
        ++ joinSep ", " (specSelectList pivotConf bucketEntries)
        ++ " FROM " ++ TEMP_TABLE_NAME
        ++ specGroupClause pivotConf ++ specOrderClause pivotConf) := by
  obtain ⟨pcO, aggs, gbO, sbO⟩ := pivotConf
  have key : getSql ⟨pcO, aggs, gbO, sbO⟩ scan =
      Except.ok (sqlText ⟨pcO, aggs, gbO, sbO⟩ bucketEntries) := by
    unfold getSql
    rw [hb]
    rfl
  rw [key]
  refine congrArg Except.ok ?_
  have hrest : bucketEntries ++ aggs.map sumExpr ≠ [] := by
    cases aggs with
    | nil => exact absurd rfl hne
    | cons a as => simp
  cases gbO with
  | none =>
    cases sbO with
    | none =>
      simp [sqlText, specSelectList, specGroupClause, specOrderClause,
        String.append_empty, String.append_assoc]
    | some ss =>
      simp [sqlText, specSelectList, specGroupClause, specOrderClause,
        String.append_empty, String.append_assoc]
  | some gs =>
    cases gs with
    | nil =>
      cases sbO with
      | none =>
        simp [sqlText, specSelectList, specGroupClause, specOrderClause,
          joinSep, String.append_empty, String.append_assoc]
      | some ss =>
        simp [sqlText, specSelectList, specGroupClause, specOrderClause,
          joinSep, String.append_empty, String.append_assoc,
          group_order_fold]
    | cons g gs' =>
      have hgs : (g :: gs' : List String) ≠ [] := by simp
      have hsplit := joinSep_append ", " (g :: gs')
        (bucketEntries ++ aggs.map sumExpr) hgs hrest
      rw [List.cons_append] at hsplit
      cases sbO with
      | none =>
        simp [sqlText, specSelectList, specGroupClause, specOrderClause,
          hsplit, String.append_empty, String.append_assoc,
          comma_space_append]
      | some ss =>
        simp [sqlText, specSelectList, specGroupClause, specOrderClause,
          hsplit, String.append_empty, String.append_assoc,
          comma_space_append]

/-- A configuration exercising all three select-list kinds: an explicit
single-bucket pivot column, one aggregation, an aliased groupBy and a
sortBy. -/
def conf9 : IPivotConf :=
  ⟨some ⟨"month", "amount", some [("q1", ["2022-01"])]⟩, ["amount"],
    some ["category AS name"], some ["category"]⟩

/-- C9, witness at `conf9`. -/
theorem query_assembly_order_witness :
    getSql conf9 (fun _ => Except.ok []) = Except.ok
      ("SELECT " ++ (if conf9.groupBy.getD [] = [] then " " else "")
        ++ joinSep ", " (specSelectList conf9
            ["SUM(CASE WHEN month IN ('2022-01') THEN amount ELSE 0 END) AS \"q1\""])
        ++ " FROM " ++ TEMP_TABLE_NAME
        ++ specGroupClause conf9 ++ specOrderClause conf9) :=
  query_assembly_order conf9 (fun _ => Except.ok [])
    ["SUM(CASE WHEN month IN ('2022-01') THEN amount ELSE 0 END) AS \"q1\""]
    rfl (by decide)

/-! ### C10 -/

/-- C10: a present-but-empty `groupBy` and `sortBy` (empty arrays are
truthy) still append the `GROUP BY` and `ORDER BY` keywords, each followed
by an empty expression list; relative to the same configuration with both
fields absent, the assembled text gains exactly `' GROUP BY '` and
`' ORDER BY '`. The clauses are omitted only when the fields are absent. -/
theorem empty_clause_lists_still_emitted (pivotConf : IPivotConf)
    (scan : String → Except JsError (List String)) (base : String)
    (hg : pivotConf.groupBy = some []) (hs : pivotConf.sortBy = some [])
    (hbase : getSql { pivotConf with groupBy := none, sortBy := none } scan =
      Except.ok base) :
    getSql pivotConf scan =
      Except.ok (base ++ " GROUP BY " ++ " ORDER BY ") := by
  obtain ⟨pcO, aggs, gbO, sbO⟩ := pivotConf
  cases hg
  cases hs
  unfold getSql at hbase ⊢
  cases hsel : selectCaseE ⟨pcO, aggs, none, none⟩ scan with
  | error e =>
    rw [hsel] at hbase
    exact absurd hbase (by simp [Except.bind])
  | ok sc =>
    have hsel2 : selectCaseE ⟨pcO, aggs, some [], some []⟩ scan =
        Except.ok sc := hsel
    rw [hsel] at hbase
    rw [hsel2]
    have h3 : Except.ok (sqlText ⟨pcO, aggs, none, none⟩ sc) =
        Except.ok base := hbase
    injection h3 with h4
    rw [← h4]
    show Except.ok (sqlText ⟨pcO, aggs, some [], some []⟩ sc) = _
    refine congrArg Except.ok ?_
    simp [sqlText, joinSep, String.append_empty, String.append_assoc]

/-- A configuration with one aggregation and both clause fields present as
empty arrays. -/
def confEmptyClauses : IPivotConf := ⟨none, ["a"], some [], some []⟩

/-- C10, witness at `confEmptyClauses`. -/
theorem empty_clause_lists_still_emitted_witness :
    getSql confEmptyClauses (fun _ => Except.ok []) =
      Except.ok ("SELECT  SUM(a) AS a FROM temp_rows"
        ++ " GROUP BY " ++ " ORDER BY ") :=
  empty_clause_lists_still_emitted confEmptyClauses (fun _ => Except.ok [])
    "SELECT  SUM(a) AS a FROM temp_rows" rfl rfl rfl
